import Mathlib

/-!
Shallow embedding of the demo checkout service (src/src/lambda_handler.py and
src/src/error_injector.py).

Modelling conventions:
- Python floats (fault rates, random draws) are modelled as rationals `ℚ`;
  Python ints as `ℤ` or `ℕ`.
- The scenario dictionaries of `FaultInjector.FAULT_SCENARIOS` become a record
  `FaultConfig`; dictionary keys that are absent from some entries
  (`deployment_time_offset_mins`, `additional_latency_ms`, and the four rate
  keys that only `error_injector.get_cumulative_error_probabilities` reads via
  `.get(key, 0)`) are `Option`-valued, with `Option.getD` standing for
  Python's `dict.get(key, default)`.
- The ambient environment variable `FAULT_SCENARIO` and the file
  `/tmp/invocation_count.txt` are passed explicitly: the scenario as a
  `String` argument and the counter file as a `CounterStore` state that each
  operation threads through.  The `readFails`/`writeFails` flags model the
  `try/except` blocks around the file accesses in `_get_invocation_count`.
- Python dict aliasing is modelled faithfully: `FAULT_SCENARIOS.get(scenario, ...)`
  returns the table entry itself, so the write
  `config["additional_latency_ms"] = ...` updates the stored table entry;
  `get_fault_config` therefore returns the (possibly updated) table.
- `random.random()` and each `random.randint` call site are modelled by an
  oracle record `Draws`: the uniform roll is a rational in `[0,1)` supplied by
  the caller, and each `randint(a, b)` call site consumes a natural number `x`
  mapped into `[a, b]` by `randint a b x = a + x % (b - a + 1)`.
- `time.sleep(d / 1000)` calls are modelled by accumulating the slept
  milliseconds in the `sleep_ms` field of the evaluation result.
- Raising an exception is modelled by `Except`: `PyError.timeoutError`
  carries the numbers interpolated into the `TimeoutError` message and
  `PyError.nullPointer` stands for the generic
  `Exception("NullPointerException: order.paymentMethod is null")`.
-/

namespace Checkout

/-- Configuration record for one fault-injection scenario: one entry of
`FaultInjector.FAULT_SCENARIOS` (a Python dict). -/
structure FaultConfig where
  db_timeout_rate : ℚ
  slow_query_rate : ℚ
  exception_rate : ℚ
  db_pool_size : ℤ
  concurrent_calls : ℤ
  query_duration_ms : ℤ
  timeout_ms : ℤ
  deployment_time_offset_mins : Option ℤ := none
  additional_latency_ms : Option ℤ := none
  api_error_rate : Option ℚ := none
  validation_error_rate : Option ℚ := none
  memory_error_rate : Option ℚ := none
  external_api_error_rate : Option ℚ := none
  deriving Repr, DecidableEq

/-- The five-entry scenario table `FaultInjector.FAULT_SCENARIOS`. -/
structure ScenarioTable where
  normal : FaultConfig
  db_pool_exhaustion : FaultConfig
  deployment_config_bug : FaultConfig
  memory_leak : FaultConfig
  cascading_failure : FaultConfig
  deriving Repr, DecidableEq

namespace FaultInjector

/-- Initial contents of the class attribute `FaultInjector.FAULT_SCENARIOS`. -/
def FAULT_SCENARIOS : ScenarioTable where
  normal :=
    { db_timeout_rate := 5/100
      slow_query_rate := 10/100
      exception_rate := 5/100
      db_pool_size := 10
      concurrent_calls := 1
      query_duration_ms := 150
      timeout_ms := 5000 }
  db_pool_exhaustion :=
    { db_timeout_rate := 50/100
      slow_query_rate := 30/100
      exception_rate := 0
      db_pool_size := 3
      concurrent_calls := 5
      query_duration_ms := 150
      timeout_ms := 5000 }
  deployment_config_bug :=
    { db_timeout_rate := 40/100
      slow_query_rate := 40/100
      exception_rate := 10/100
      db_pool_size := 5
      concurrent_calls := 8
      query_duration_ms := 2000
      timeout_ms := 3000
      deployment_time_offset_mins := some 15 }
  memory_leak :=
    { db_timeout_rate := 10/100
      slow_query_rate := 20/100
      exception_rate := 15/100
      db_pool_size := 10
      concurrent_calls := 1
      query_duration_ms := 300
      timeout_ms := 5000 }
  cascading_failure :=
    { db_timeout_rate := 70/100
      slow_query_rate := 20/100
      exception_rate := 10/100
      db_pool_size := 2
      concurrent_calls := 10
      query_duration_ms := 500
      timeout_ms := 2000 }

end FaultInjector

/-- The lookup `FAULT_SCENARIOS.get(scenario, FAULT_SCENARIOS["normal"])`:
unknown scenario names fall back to the `normal` entry.  Total by
construction, mirroring that `dict.get` with a default never raises. -/
def ScenarioTable.get (t : ScenarioTable) (scenario : String) : FaultConfig :=
  if scenario = "normal" then t.normal
  else if scenario = "db_pool_exhaustion" then t.db_pool_exhaustion
  else if scenario = "deployment_config_bug" then t.deployment_config_bug
  else if scenario = "memory_leak" then t.memory_leak
  else if scenario = "cascading_failure" then t.cascading_failure
  else t.normal

/-- State of the counter file `/tmp/invocation_count.txt`. `contents = none`
means the file is absent; `readFails`/`writeFails` make the corresponding
file access raise (the exception is swallowed by the source's `try/except`). -/
structure CounterStore where
  contents : Option ℕ := none
  readFails : Bool := false
  writeFails : Bool := false
  deriving Repr, DecidableEq

namespace FaultInjector

/-- Embedding of `FaultInjector._get_invocation_count`: read the persisted
count (0 if the file is absent or the read raises), increment, best-effort
write-back (ignored if the write raises), return the incremented count. -/
def _get_invocation_count (st : CounterStore) : ℕ × CounterStore :=
  let count : ℕ := if st.readFails then 0 else st.contents.getD 0
  let count := count + 1
  (count, if st.writeFails then st else { st with contents := some count })

/-- Embedding of `FaultInjector.get_fault_config`.  The active scenario
(environment variable `FAULT_SCENARIO`) and the counter file are explicit
arguments.  For `memory_leak` the dynamic `additional_latency_ms` is computed
from the incremented invocation count; because the Python code writes it into
the dict object returned by `FAULT_SCENARIOS.get`, the write lands in the
table entry itself, so the updated table is returned alongside the config. -/
def get_fault_config (t : ScenarioTable) (scenario : String) (st : CounterStore) :
    FaultConfig × ScenarioTable × CounterStore :=
  let config := t.get scenario
  if scenario = "memory_leak" then
    let r := _get_invocation_count st
    let invocation_count := r.1
    let degradation_factor : ℚ := min ((invocation_count : ℚ) / 100) 5
    let config := { config with additional_latency_ms := some ⌊(100 : ℚ) * degradation_factor⌋ }
    (config, { t with memory_leak := config }, r.2)
  else
    (config, t, st)

end FaultInjector

/-- The rates read by `error_injector.get_cumulative_error_probabilities`, in
its fixed declared priority order (`error_types` in the source). -/
def errorTypeRates (cfg : FaultConfig) : List ℚ :=
  [cfg.db_timeout_rate,
   cfg.slow_query_rate,
   cfg.api_error_rate.getD 0,
   cfg.validation_error_rate.getD 0,
   cfg.memory_error_rate.getD 0,
   cfg.external_api_error_rate.getD 0,
   cfg.exception_rate]

/-- Embedding of `error_injector.get_cumulative_error_probabilities`: the
running sums of the rates, walking the classes in declared order.  The Python
dict keyed by rate name becomes the list of cumulative values in that order. -/
def get_cumulative_error_probabilities (cfg : FaultConfig) : List ℚ :=
  (((errorTypeRates cfg).scanl (· + ·) 0)).tail

/-- Embedding of `random.randint(a, b)`: the oracle value `x` is mapped into
the inclusive range `[a, b]`. -/
def randint (a b : ℤ) (x : ℕ) : ℤ :=
  a + (x : ℤ) % (b - a + 1)

/-- Random oracle for one `simulate_database_query` evaluation: the
`random.random()` roll plus one natural per `randint` call site (the timeout
branch calls `randint(4500, 5500)` twice and keeps the second value). -/
structure Draws where
  fault_roll : ℚ
  timeout_roll_one : ℕ := 0
  timeout_roll_two : ℕ := 0
  slow_roll : ℕ := 0
  normal_roll : ℕ := 0
  deriving Repr, DecidableEq

/-- Exceptions raised by `simulate_database_query`, carrying the values
interpolated into their messages. -/
inductive PyError where
  | timeoutError (wait_time_ms db_pool_size concurrent_calls : ℤ)
  | nullPointer
  deriving Repr, DecidableEq

/-- The dict returned by `simulate_database_query` on the non-raising paths:
`{"status": ..., "latency": ...?, "duration_ms": ...}`. -/
structure QueryResult where
  status : String
  latency : Option String := none
  duration_ms : ℤ
  deriving Repr, DecidableEq

/-- The fields of the structured log record each branch emits that the
verification tracks (other fields are constants or echo the inputs). -/
inductive LogDetail where
  | timeoutLog (query_duration_ms wait_time_ms db_pool_size concurrent_calls
      pool_available : ℤ) (minutes_since_deployment : Option ℤ)
  | slowLog (query_duration_ms : ℤ) (is_latency_spike : Bool)
      (minutes_since_deployment : Option ℤ)
  | exceptionLog
  | successLog (processing_time_ms : ℤ)
  deriving Repr, DecidableEq

instance : DecidableEq (Except PyError QueryResult) := fun a b =>
  match a, b with
  | .ok x, .ok y =>
      if h : x = y then isTrue (h ▸ rfl) else isFalse (fun hh => h (Except.ok.inj hh))
  | .ok _, .error _ => isFalse (fun hh => Except.noConfusion hh)
  | .error _, .ok _ => isFalse (fun hh => Except.noConfusion hh)
  | .error x, .error y =>
      if h : x = y then isTrue (h ▸ rfl) else isFalse (fun hh => h (Except.error.inj hh))

/-- Result of one `simulate_database_query` evaluation: the returned value or
raised exception, the emitted log record, and the total milliseconds slept. -/
structure SimResult where
  result : Except PyError QueryResult
  logDetail : LogDetail
  sleep_ms : ℚ
  deriving Repr, DecidableEq

/-- Embedding of `simulate_database_query`.  The active scenario, counter
file, and random oracle are explicit; the updated table and counter state are
returned because `get_fault_config` may mutate both. -/
def simulate_database_query (t : ScenarioTable) (scenario : String)
    (st : CounterStore) (d : Draws) :
    SimResult × ScenarioTable × CounterStore :=
  let r := FaultInjector.get_fault_config t scenario st
  let fault_config := r.1
  let db_pool_size := fault_config.db_pool_size
  let concurrent_calls := fault_config.concurrent_calls
  let base_query_duration := fault_config.query_duration_ms
  let timeout_threshold := fault_config.timeout_ms
  let fault_roll := d.fault_roll
  if fault_roll < fault_config.db_timeout_rate then
    -- first randint(4500, 5500) result is overwritten by the second
    let query_duration := randint 4500 5500 d.timeout_roll_one
    let query_duration := randint 4500 5500 d.timeout_roll_two
    let actual_wait_time :=
      if concurrent_calls > db_pool_size then timeout_threshold else query_duration
    ({ result := .error (.timeoutError actual_wait_time db_pool_size concurrent_calls)
       logDetail := .timeoutLog query_duration actual_wait_time db_pool_size
         concurrent_calls (db_pool_size - concurrent_calls)
         fault_config.deployment_time_offset_mins
       sleep_ms := 0 }, r.2)
  else if fault_roll < fault_config.db_timeout_rate + fault_config.slow_query_rate then
    let query_duration := randint ⌊(base_query_duration : ℚ) * (8/10)⌋
      ⌊(base_query_duration : ℚ) * (12/10)⌋ d.slow_roll
    let is_latency_spike := decide (query_duration ≥ 2000)
    ({ result := .ok { status := "success"
                       latency := some ("high")
                       duration_ms := query_duration }
       logDetail := .slowLog query_duration is_latency_spike
         fault_config.deployment_time_offset_mins
       sleep_ms := (query_duration : ℚ) }, r.2)
  else if fault_roll < fault_config.db_timeout_rate + fault_config.slow_query_rate
      + fault_config.exception_rate then
    ({ result := .error .nullPointer
       logDetail := .exceptionLog
       sleep_ms := 0 }, r.2)
  else
    let normal_duration := randint 80 150 d.normal_roll
    let additional_latency := fault_config.additional_latency_ms.getD 0
    let pre_sleep : ℚ := if additional_latency > 0 then (additional_latency : ℚ) else 0
    let normal_duration :=
      if additional_latency > 0 then normal_duration + additional_latency
      else normal_duration
    ({ result := .ok { status := "success", duration_ms := normal_duration }
       logDetail := .successLog normal_duration
       sleep_ms := pre_sleep + (normal_duration : ℚ) }, r.2)

/-- Outcome class of one evaluation, recovered from its result: a raised
`TimeoutError` is a timeout, a raised generic exception is the unhandled
exception, a returned record with `"latency": "high"` is a slow query, and a
plain returned record is a success. -/
inductive OutcomeClass where
  | timeout
  | slowQuery
  | unhandledException
  | success
  deriving Repr, DecidableEq

/-- Classify one evaluation result into its outcome class. -/
def SimResult.outcomeClass (r : SimResult) : OutcomeClass :=
  match r.result with
  | .error (.timeoutError _ _ _) => .timeout
  | .error .nullPointer => .unhandledException
  | .ok q => if q.latency.isSome then .slowQuery else .success

/-- The message of a raised exception (`str(e)` in the handler). -/
def PyError.message : PyError → String
  | .timeoutError w p c =>
      "Database connection timeout after " ++ toString w ++
      "ms waiting for connection. Pool size: " ++ toString p ++
      ", Concurrent requests: " ++ toString c
  | .nullPointer => "NullPointerException: order.paymentMethod is null"

/-- HTTP-style response built by `handler`: the status code and the fields of
the JSON body (`error` and `status` are `Option`-valued because each body
contains only one of them). -/
structure Response where
  statusCode : ℕ
  error : Option String := none
  status : Option String := none
  message : String
  order_id : String
  deriving Repr, DecidableEq

/-- Embedding of `handler`: run `simulate_database_query` and map its result —
`except TimeoutError` gives 504 Gateway Timeout, any other exception gives
500 Internal Server Error, a returned value gives 200 completed. -/
def handler (t : ScenarioTable) (scenario : String) (st : CounterStore)
    (d : Draws) (order_id : String) :
    Response × ScenarioTable × CounterStore :=
  let r := simulate_database_query t scenario st d
  match r.1.result with
  | .ok _ =>
      ({ statusCode := 200, status := some ("completed"),
         message := "Checkout successful", order_id := order_id }, r.2)
  | .error (.timeoutError w p c) =>
      ({ statusCode := 504, error := some ("Gateway Timeout"),
         message := PyError.message (.timeoutError w p c), order_id := order_id }, r.2)
  | .error .nullPointer =>
      ({ statusCode := 500, error := some ("Internal Server Error"),
         message := PyError.message .nullPointer, order_id := order_id }, r.2)

/-- Counter-file state after `n` evaluations of `_get_invocation_count`. -/
def counterRun : ℕ → CounterStore → CounterStore
  | 0, st => st
  | n + 1, st => counterRun n (FaultInjector._get_invocation_count st).2

/-- The dynamic additional latency the `memory_leak` scenario computes from an
invocation count: `int(100 * min(count / 100, 5.0))` in the source. -/
def memory_leak_additional_latency (count : ℕ) : ℤ :=
  ⌊(100 : ℚ) * min ((count : ℚ) / 100) 5⌋

/-- The seven cumulative thresholds the engine's configuration induces for a
scenario resolved from the initial catalog (the list of running sums of
`get_cumulative_error_probabilities`). -/
def engineThresholds (name : String) (st : CounterStore) : List ℚ :=
  get_cumulative_error_probabilities
    (FaultInjector.get_fault_config FaultInjector.FAULT_SCENARIOS name st).1

/-- Sum of all configured outcome-class rates of a configuration, in the
declared priority order (absent rate keys read as 0). -/
def ratesTotal (cfg : FaultConfig) : ℚ :=
  cfg.db_timeout_rate + cfg.slow_query_rate + cfg.api_error_rate.getD 0 +
  cfg.validation_error_rate.getD 0 + cfg.memory_error_rate.getD 0 +
  cfg.external_api_error_rate.getD 0 + cfg.exception_rate

/-- The log field holding `pool_available` when the evaluation logged a
timeout record. -/
def poolAvailableOf (r : SimResult) : Option ℤ :=
  match r.logDetail with
  | .timeoutLog _ _ _ _ pa _ => some pa
  | _ => none

/-- Property bundle for C4: the handler's response is determined by the
outcome class — 504 Gateway Timeout for a timeout, 500 Internal Server Error
for every other raised failure (here the unhandled exception), and 200
completed for a returned value (plain success or slow query alike). -/
def C4Prop (t : ScenarioTable) (scenario : String) (st : CounterStore)
    (d : Draws) (order_id : String) : Prop :=
  let cls := (simulate_database_query t scenario st d).1.outcomeClass
  let resp := (handler t scenario st d order_id).1
  (cls = .timeout ↔ resp.statusCode = 504) ∧
  (resp.statusCode = 504 → resp.error = some ("Gateway Timeout") ∧
    resp.status = none ∧ resp.order_id = order_id) ∧
  (cls = .unhandledException ↔ resp.statusCode = 500) ∧
  (resp.statusCode = 500 → resp.error = some ("Internal Server Error") ∧
    resp.status = none ∧ resp.order_id = order_id) ∧
  ((cls = .success ∨ cls = .slowQuery) ↔ resp.statusCode = 200) ∧
  (resp.statusCode = 200 → resp.status = some ("completed") ∧ resp.error = none ∧
    resp.message = "Checkout successful" ∧ resp.order_id = order_id)

/-- Property bundle for C6: in a timeout outcome the drawn query duration is
the second `randint(4500, 5500)` value, hence lies in `[4500, 5500]`; the
effective wait equals `timeout_ms` when `concurrent_calls > db_pool_size` and
the drawn duration otherwise; and that wait is reported both in the
structured log record and in the raised `TimeoutError`. -/
def C6Prop (t : ScenarioTable) (scenario : String) (st : CounterStore)
    (d : Draws) : Prop :=
  4500 ≤ randint 4500 5500 d.timeout_roll_two ∧
  randint 4500 5500 d.timeout_roll_two ≤ 5500 ∧
  (simulate_database_query t scenario st d).1.logDetail =
    .timeoutLog (randint 4500 5500 d.timeout_roll_two)
      (if (FaultInjector.get_fault_config t scenario st).1.concurrent_calls >
          (FaultInjector.get_fault_config t scenario st).1.db_pool_size then
        (FaultInjector.get_fault_config t scenario st).1.timeout_ms
      else randint 4500 5500 d.timeout_roll_two)
      (FaultInjector.get_fault_config t scenario st).1.db_pool_size
      (FaultInjector.get_fault_config t scenario st).1.concurrent_calls
      ((FaultInjector.get_fault_config t scenario st).1.db_pool_size -
        (FaultInjector.get_fault_config t scenario st).1.concurrent_calls)
      (FaultInjector.get_fault_config t scenario st).1.deployment_time_offset_mins ∧
  (simulate_database_query t scenario st d).1.result =
    .error (.timeoutError
      (if (FaultInjector.get_fault_config t scenario st).1.concurrent_calls >
          (FaultInjector.get_fault_config t scenario st).1.db_pool_size then
        (FaultInjector.get_fault_config t scenario st).1.timeout_ms
      else randint 4500 5500 d.timeout_roll_two)
      (FaultInjector.get_fault_config t scenario st).1.db_pool_size
      (FaultInjector.get_fault_config t scenario st).1.concurrent_calls)

/-- Property bundle for C7: under scenario `cascading_failure` the evaluation
is a slow query returned as a success value: one single drawn duration
`q = randint 400 600` (±20% of the 500 ms base) is used for the sleep, the
log record, and the returned record, it lies in `[400, 600]`, and the
latency-spike flag is off since `q < 2000`. -/
def C7Prop (st : CounterStore) (d : Draws) : Prop :=
  (simulate_database_query FaultInjector.FAULT_SCENARIOS ("cascading_failure")
    st d).1.outcomeClass = .slowQuery ∧
  (simulate_database_query FaultInjector.FAULT_SCENARIOS ("cascading_failure")
    st d).1.result = .ok
      { status := "success"
        latency := some ("high")
        duration_ms := randint 400 600 d.slow_roll } ∧
  (simulate_database_query FaultInjector.FAULT_SCENARIOS ("cascading_failure")
    st d).1.logDetail = .slowLog (randint 400 600 d.slow_roll) false none ∧
  (simulate_database_query FaultInjector.FAULT_SCENARIOS ("cascading_failure")
    st d).1.sleep_ms = ((randint 400 600 d.slow_roll : ℤ) : ℚ) ∧
  400 ≤ randint 400 600 d.slow_roll ∧ randint 400 600 d.slow_roll ≤ 600

/-- Property bundle for the (amended) C3: a `memory_leak` evaluation that
lands in the success branch reports duration `base + A` where `base` is the
uniform `[80, 150]` draw and `A = memory_leak_additional_latency count` for
the incremented invocation count; the total slept time is `A + (base + A)` —
the additional latency is slept once on its own and once more inside the
reported duration; and `A` is `min count 500`: non-decreasing in the count,
0 at count 0, and exactly 500 for every count at or above 500. -/
def C3Prop (st : CounterStore) (d : Draws) : Prop :=
  (simulate_database_query FaultInjector.FAULT_SCENARIOS ("memory_leak")
    st d).1.result = .ok
      { status := "success"
        latency := none
        duration_ms := randint 80 150 d.normal_roll +
          memory_leak_additional_latency (FaultInjector._get_invocation_count st).1 } ∧
  (simulate_database_query FaultInjector.FAULT_SCENARIOS ("memory_leak")
    st d).1.logDetail = .successLog (randint 80 150 d.normal_roll +
      memory_leak_additional_latency (FaultInjector._get_invocation_count st).1) ∧
  (simulate_database_query FaultInjector.FAULT_SCENARIOS ("memory_leak")
    st d).1.sleep_ms =
      ((memory_leak_additional_latency (FaultInjector._get_invocation_count st).1 : ℤ) : ℚ) +
      ((randint 80 150 d.normal_roll +
        memory_leak_additional_latency (FaultInjector._get_invocation_count st).1 : ℤ) : ℚ) ∧
  80 ≤ randint 80 150 d.normal_roll ∧ randint 80 150 d.normal_roll ≤ 150 ∧
  memory_leak_additional_latency (FaultInjector._get_invocation_count st).1 =
    min ((FaultInjector._get_invocation_count st).1 : ℤ) 500 ∧
  (∀ c1 c2 : ℕ, c1 ≤ c2 →
    memory_leak_additional_latency c1 ≤ memory_leak_additional_latency c2) ∧
  memory_leak_additional_latency 0 = 0 ∧
  (∀ c : ℕ, 500 ≤ c → memory_leak_additional_latency c = 500)

/-- Property bundle for C1 over the engine's own outcome classes: the
cumulative thresholds of the configuration the engine consults are
monotonically non-decreasing; the engine picks the timeout class exactly on
`[0, threshold_1)`, the slow-query class exactly on `[threshold_1,
threshold_2)`, and the unhandled-exception class exactly on `[threshold_6,
threshold_7)`; the four middle thresholds coincide (classes the engine has no
code path for carry zero rate, so their buckets are empty and they are indeed
never selected); the engine yields Success exactly when the draw is at or
above the final threshold; and the final threshold is the sum of all
configured rates. -/
def C1Prop (name : String) (st : CounterStore) (d : Draws) : Prop :=
  List.Chain' (· ≤ ·) (engineThresholds name st) ∧
  ((simulate_database_query FaultInjector.FAULT_SCENARIOS name st d).1.outcomeClass =
      .timeout ↔
    0 ≤ d.fault_roll ∧ d.fault_roll < (engineThresholds name st).getD 0 0) ∧
  ((simulate_database_query FaultInjector.FAULT_SCENARIOS name st d).1.outcomeClass =
      .slowQuery ↔
    (engineThresholds name st).getD 0 0 ≤ d.fault_roll ∧
    d.fault_roll < (engineThresholds name st).getD 1 0) ∧
  ((engineThresholds name st).getD 1 0 = (engineThresholds name st).getD 2 0 ∧
   (engineThresholds name st).getD 2 0 = (engineThresholds name st).getD 3 0 ∧
   (engineThresholds name st).getD 3 0 = (engineThresholds name st).getD 4 0 ∧
   (engineThresholds name st).getD 4 0 = (engineThresholds name st).getD 5 0) ∧
  ((simulate_database_query FaultInjector.FAULT_SCENARIOS name st d).1.outcomeClass =
      .unhandledException ↔
    (engineThresholds name st).getD 5 0 ≤ d.fault_roll ∧
    d.fault_roll < (engineThresholds name st).getD 6 0) ∧
  ((simulate_database_query FaultInjector.FAULT_SCENARIOS name st d).1.outcomeClass =
      .success ↔ (engineThresholds name st).getD 6 0 ≤ d.fault_roll) ∧
  (engineThresholds name st).getD 6 0 =
    ratesTotal (FaultInjector.get_fault_config FaultInjector.FAULT_SCENARIOS name st).1

section Lemmas

/-- `randint a b x` lies in the inclusive range `[a, b]` whenever `a ≤ b`. -/
lemma randint_bounds (a b : ℤ) (x : ℕ) (h : a ≤ b) :
    a ≤ randint a b x ∧ randint a b x ≤ b := by
  unfold randint
  have hpos : 0 < b - a + 1 := by omega
  have h1 := Int.emod_nonneg (x : ℤ) (by omega : b - a + 1 ≠ 0)
  have h2 := Int.emod_lt_of_pos (x : ℤ) hpos
  omega

/-- Closed form of the cumulative-probability list: the seven running sums in
declared priority order. -/
lemma get_cumulative_eq (cfg : FaultConfig) :
    get_cumulative_error_probabilities cfg =
      [cfg.db_timeout_rate,
       cfg.db_timeout_rate + cfg.slow_query_rate,
       cfg.db_timeout_rate + cfg.slow_query_rate + cfg.api_error_rate.getD 0,
       cfg.db_timeout_rate + cfg.slow_query_rate + cfg.api_error_rate.getD 0
         + cfg.validation_error_rate.getD 0,
       cfg.db_timeout_rate + cfg.slow_query_rate + cfg.api_error_rate.getD 0
         + cfg.validation_error_rate.getD 0 + cfg.memory_error_rate.getD 0,
       cfg.db_timeout_rate + cfg.slow_query_rate + cfg.api_error_rate.getD 0
         + cfg.validation_error_rate.getD 0 + cfg.memory_error_rate.getD 0
         + cfg.external_api_error_rate.getD 0,
       cfg.db_timeout_rate + cfg.slow_query_rate + cfg.api_error_rate.getD 0
         + cfg.validation_error_rate.getD 0 + cfg.memory_error_rate.getD 0
         + cfg.external_api_error_rate.getD 0 + cfg.exception_rate] := by
  simp [get_cumulative_error_probabilities, errorTypeRates, List.scanl]

/-- The outcome class of an evaluation follows the source's cumulative
if-chain over the configured rates. -/
lemma outcomeClass_simulate (t : ScenarioTable) (scenario : String)
    (st : CounterStore) (d : Draws) :
    (simulate_database_query t scenario st d).1.outcomeClass =
      (if d.fault_roll < (FaultInjector.get_fault_config t scenario st).1.db_timeout_rate then
        .timeout
      else if d.fault_roll < (FaultInjector.get_fault_config t scenario st).1.db_timeout_rate
          + (FaultInjector.get_fault_config t scenario st).1.slow_query_rate then
        .slowQuery
      else if d.fault_roll < (FaultInjector.get_fault_config t scenario st).1.db_timeout_rate
          + (FaultInjector.get_fault_config t scenario st).1.slow_query_rate
          + (FaultInjector.get_fault_config t scenario st).1.exception_rate then
        .unhandledException
      else .success) := by
  simp only [simulate_database_query, SimResult.outcomeClass]
  split_ifs <;> rfl

/-- Healthy counter runs accumulate: after `n` further evaluations starting
from a stored value `c`, the file holds `c + n`. -/
lemma counterRun_healthy (n : ℕ) : ∀ c : ℕ,
    counterRun n { contents := some c, readFails := false, writeFails := false } =
      { contents := some (c + n), readFails := false, writeFails := false } := by
  induction n with
  | zero => intro c; rfl
  | succ n ih =>
      intro c
      rw [counterRun]
      have hstep : (FaultInjector._get_invocation_count
          { contents := some c, readFails := false, writeFails := false }).2 =
          { contents := some (c + 1), readFails := false, writeFails := false } := rfl
      rw [hstep, ih]
      have h1 : c + 1 + n = c + (n + 1) := by omega
      rw [h1]

/-- Closed form of the dynamic latency: `int(100 * min(count / 100, 5.0))`
equals `min count 500`. -/
lemma memory_leak_additional_latency_eq (count : ℕ) :
    memory_leak_additional_latency count = min (count : ℤ) 500 := by
  unfold memory_leak_additional_latency
  rcases le_total ((count : ℚ) / 100) 5 with h | h
  · rw [min_eq_left h]
    have h1 : (100 : ℚ) * ((count : ℚ) / 100) = (count : ℚ) := by ring
    have h2 : (count : ℤ) ≤ 500 := by
      have h3 := (div_le_iff₀ (by norm_num : (0:ℚ) < 100)).mp h
      have h4 : (count : ℚ) ≤ 500 := by linarith
      exact_mod_cast h4
    rw [h1, Int.floor_natCast, min_eq_left h2]
  · rw [min_eq_right h]
    have h2 : (500 : ℤ) ≤ (count : ℤ) := by
      have h3 := (le_div_iff₀ (by norm_num : (0:ℚ) < 100)).mp h
      have h4 : (500 : ℚ) ≤ (count : ℚ) := by linarith
      exact_mod_cast h4
    rw [min_eq_right h2]
    norm_num

/-- Evaluating `get_fault_config` for `memory_leak`: the returned config is
the stored entry with `additional_latency_ms = min count 500` written in, the
returned table holds that same updated entry (dict aliasing), and the counter
advances. -/
lemma get_fault_config_memory_leak (t : ScenarioTable) (st : CounterStore) :
    FaultInjector.get_fault_config t ("memory_leak") st =
      ({ t.memory_leak with
          additional_latency_ms := some (min ((FaultInjector._get_invocation_count st).1 : ℤ) 500) },
       { t with
          memory_leak := { t.memory_leak with
            additional_latency_ms := some (min ((FaultInjector._get_invocation_count st).1 : ℤ) 500) } },
       (FaultInjector._get_invocation_count st).2) := by
  have h := memory_leak_additional_latency_eq (FaultInjector._get_invocation_count st).1
  unfold memory_leak_additional_latency at h
  unfold FaultInjector.get_fault_config
  rw [if_pos rfl]
  simp [ScenarioTable.get, h]

/-- For any scenario other than `memory_leak`, `get_fault_config` is the bare
table lookup and touches neither the table nor the counter. -/
lemma get_fault_config_not_memory_leak (t : ScenarioTable) (scenario : String)
    (st : CounterStore) (h : scenario ≠ "memory_leak") :
    FaultInjector.get_fault_config t scenario st = (t.get scenario, t, st) := by
  unfold FaultInjector.get_fault_config
  rw [if_neg h]

/-- Concrete outcome used by the C5 and C6 witnesses: scenario
`db_pool_exhaustion` with roll 0.01 times out. -/
lemma pool_exhaustion_timeout_outcome :
    (simulate_database_query FaultInjector.FAULT_SCENARIOS ("db_pool_exhaustion") {}
      { fault_roll := 1/100 }).1.outcomeClass = .timeout := by
  rw [outcomeClass_simulate]
  rw [show ({ fault_roll := 1/100 } : Draws).fault_roll = (1:ℚ)/100 from rfl]
  rw [show (FaultInjector.get_fault_config FaultInjector.FAULT_SCENARIOS ("db_pool_exhaustion")
    ({} : CounterStore)).1.db_timeout_rate = (50:ℚ)/100 from rfl]
  rw [if_pos (by norm_num : (1:ℚ)/100 < (50:ℚ)/100)]

/-- An evaluation classified as a timeout took the first branch: its roll is
below the configured timeout rate. -/
lemma timeout_roll_lt (t : ScenarioTable) (scenario : String) (st : CounterStore)
    (d : Draws)
    (h : (simulate_database_query t scenario st d).1.outcomeClass = .timeout) :
    d.fault_roll < (FaultInjector.get_fault_config t scenario st).1.db_timeout_rate := by
  by_contra hc
  rw [outcomeClass_simulate, if_neg hc] at h
  split_ifs at h

/-- Evaluation of the timeout branch. -/
lemma simulate_timeout_eq (t : ScenarioTable) (scenario : String) (st : CounterStore)
    (d : Draws)
    (h1 : d.fault_roll < (FaultInjector.get_fault_config t scenario st).1.db_timeout_rate) :
    (simulate_database_query t scenario st d).1 =
      { result := .error (.timeoutError
          (if (FaultInjector.get_fault_config t scenario st).1.concurrent_calls >
              (FaultInjector.get_fault_config t scenario st).1.db_pool_size then
            (FaultInjector.get_fault_config t scenario st).1.timeout_ms
          else randint 4500 5500 d.timeout_roll_two)
          (FaultInjector.get_fault_config t scenario st).1.db_pool_size
          (FaultInjector.get_fault_config t scenario st).1.concurrent_calls)
        logDetail := .timeoutLog (randint 4500 5500 d.timeout_roll_two)
          (if (FaultInjector.get_fault_config t scenario st).1.concurrent_calls >
              (FaultInjector.get_fault_config t scenario st).1.db_pool_size then
            (FaultInjector.get_fault_config t scenario st).1.timeout_ms
          else randint 4500 5500 d.timeout_roll_two)
          (FaultInjector.get_fault_config t scenario st).1.db_pool_size
          (FaultInjector.get_fault_config t scenario st).1.concurrent_calls
          ((FaultInjector.get_fault_config t scenario st).1.db_pool_size -
            (FaultInjector.get_fault_config t scenario st).1.concurrent_calls)
          (FaultInjector.get_fault_config t scenario st).1.deployment_time_offset_mins
        sleep_ms := 0 } := by
  simp only [simulate_database_query]
  rw [if_pos h1]

/-- Evaluation of the slow-query branch. -/
lemma simulate_slow_eq (t : ScenarioTable) (scenario : String) (st : CounterStore)
    (d : Draws)
    (h1 : ¬ d.fault_roll < (FaultInjector.get_fault_config t scenario st).1.db_timeout_rate)
    (h2 : d.fault_roll < (FaultInjector.get_fault_config t scenario st).1.db_timeout_rate
      + (FaultInjector.get_fault_config t scenario st).1.slow_query_rate) :
    (simulate_database_query t scenario st d).1 =
      { result := .ok
          { status := "success"
            latency := some ("high")
            duration_ms := randint
              ⌊((FaultInjector.get_fault_config t scenario st).1.query_duration_ms : ℚ) * (8/10)⌋
              ⌊((FaultInjector.get_fault_config t scenario st).1.query_duration_ms : ℚ) * (12/10)⌋
              d.slow_roll }
        logDetail := .slowLog (randint
            ⌊((FaultInjector.get_fault_config t scenario st).1.query_duration_ms : ℚ) * (8/10)⌋
            ⌊((FaultInjector.get_fault_config t scenario st).1.query_duration_ms : ℚ) * (12/10)⌋
            d.slow_roll)
          (decide ((randint
            ⌊((FaultInjector.get_fault_config t scenario st).1.query_duration_ms : ℚ) * (8/10)⌋
            ⌊((FaultInjector.get_fault_config t scenario st).1.query_duration_ms : ℚ) * (12/10)⌋
            d.slow_roll) ≥ 2000))
          (FaultInjector.get_fault_config t scenario st).1.deployment_time_offset_mins
        sleep_ms := ((randint
            ⌊((FaultInjector.get_fault_config t scenario st).1.query_duration_ms : ℚ) * (8/10)⌋
            ⌊((FaultInjector.get_fault_config t scenario st).1.query_duration_ms : ℚ) * (12/10)⌋
            d.slow_roll : ℤ) : ℚ) } := by
  simp only [simulate_database_query]
  rw [if_neg h1, if_pos h2]

/-- Evaluation of the success branch. -/
lemma simulate_success_eq (t : ScenarioTable) (scenario : String) (st : CounterStore)
    (d : Draws)
    (h1 : ¬ d.fault_roll < (FaultInjector.get_fault_config t scenario st).1.db_timeout_rate)
    (h2 : ¬ d.fault_roll < (FaultInjector.get_fault_config t scenario st).1.db_timeout_rate
      + (FaultInjector.get_fault_config t scenario st).1.slow_query_rate)
    (h3 : ¬ d.fault_roll < (FaultInjector.get_fault_config t scenario st).1.db_timeout_rate
      + (FaultInjector.get_fault_config t scenario st).1.slow_query_rate
      + (FaultInjector.get_fault_config t scenario st).1.exception_rate) :
    (simulate_database_query t scenario st d).1 =
      { result := .ok
          { status := "success"
            latency := none
            duration_ms :=
              if (FaultInjector.get_fault_config t scenario st).1.additional_latency_ms.getD 0 > 0
              then randint 80 150 d.normal_roll +
                (FaultInjector.get_fault_config t scenario st).1.additional_latency_ms.getD 0
              else randint 80 150 d.normal_roll }
        logDetail := .successLog
          (if (FaultInjector.get_fault_config t scenario st).1.additional_latency_ms.getD 0 > 0
           then randint 80 150 d.normal_roll +
             (FaultInjector.get_fault_config t scenario st).1.additional_latency_ms.getD 0
           else randint 80 150 d.normal_roll)
        sleep_ms :=
          (if (FaultInjector.get_fault_config t scenario st).1.additional_latency_ms.getD 0 > 0
           then ((FaultInjector.get_fault_config t scenario st).1.additional_latency_ms.getD 0 : ℚ)
           else 0) +
          ((if (FaultInjector.get_fault_config t scenario st).1.additional_latency_ms.getD 0 > 0
            then randint 80 150 d.normal_roll +
              (FaultInjector.get_fault_config t scenario st).1.additional_latency_ms.getD 0
            else randint 80 150 d.normal_roll : ℤ) : ℚ) } := by
  simp only [simulate_database_query]
  rw [if_neg h1, if_neg h2, if_neg h3]

end Lemmas


/-- C4: for every request (any table state, scenario, counter state, random
draws, and order id) the handler returns exactly one of the three responses,
determined by the outcome class as described in `C4Prop`. -/
theorem C4_handler_maps_outcome_class_to_status (t : ScenarioTable)
    (scenario : String) (st : CounterStore) (d : Draws) (order_id : String) :
    C4Prop t scenario st d order_id := by
  unfold C4Prop
  cases hres : (simulate_database_query t scenario st d).1.result with
  | ok q =>
      rcases hl : q.latency with _ | s <;>
        simp [handler, SimResult.outcomeClass, hres, hl]
  | error e =>
      cases e with
      | timeoutError w p c => simp [handler, SimResult.outcomeClass, hres]
      | nullPointer => simp [handler, SimResult.outcomeClass, hres]

/-- C5: for every evaluation whose outcome is a timeout, the reported
`pool_available` equals `db_pool_size - concurrent_calls` exactly (an integer
subtraction, so it goes negative when the pool is over-subscribed). -/
theorem C5_timeout_pool_available (t : ScenarioTable) (scenario : String)
    (st : CounterStore) (d : Draws)
    (h : (simulate_database_query t scenario st d).1.outcomeClass = .timeout) :
    poolAvailableOf (simulate_database_query t scenario st d).1 =
      some ((FaultInjector.get_fault_config t scenario st).1.db_pool_size -
        (FaultInjector.get_fault_config t scenario st).1.concurrent_calls) := by
  rw [simulate_timeout_eq t scenario st d (timeout_roll_lt t scenario st d h)]
  rfl

/-- Witness for C5: scenario `db_pool_exhaustion` with draw 0.01 (below its
0.50 timeout rate) yields a Timeout outcome with `pool_available = 3 - 5 = -2`. -/
theorem C5_witness :
    (simulate_database_query FaultInjector.FAULT_SCENARIOS ("db_pool_exhaustion") {}
      { fault_roll := 1/100 }).1.outcomeClass = .timeout ∧
    poolAvailableOf (simulate_database_query FaultInjector.FAULT_SCENARIOS
      "db_pool_exhaustion" {} { fault_roll := 1/100 }).1 = some (-2) := by
  refine ⟨pool_exhaustion_timeout_outcome, ?_⟩
  have h2 := C5_timeout_pool_available FaultInjector.FAULT_SCENARIOS ("db_pool_exhaustion")
    {} { fault_roll := 1/100 } pool_exhaustion_timeout_outcome
  rw [h2]
  rfl

/-- C6: every timeout outcome draws its query duration from `[4500, 5500]`
and reports the effective wait (`timeout_ms` when over-subscribed, else the
drawn duration) in both the log record and the raised error. -/
theorem C6_timeout_wait_time (t : ScenarioTable) (scenario : String)
    (st : CounterStore) (d : Draws)
    (h : (simulate_database_query t scenario st d).1.outcomeClass = .timeout) :
    C6Prop t scenario st d := by
  unfold C6Prop
  have hb := randint_bounds 4500 5500 d.timeout_roll_two (by norm_num)
  rw [simulate_timeout_eq t scenario st d (timeout_roll_lt t scenario st d h)]
  exact ⟨hb.1, hb.2, rfl, rfl⟩

/-- Witness for C6 at scenario `db_pool_exhaustion` with draw 0.01: the
outcome is a timeout and `C6Prop` holds (there `concurrent_calls = 5 >
3 = db_pool_size`, so the effective wait is the 5000 ms threshold). -/
theorem C6_witness :
    (simulate_database_query FaultInjector.FAULT_SCENARIOS ("db_pool_exhaustion") {}
      { fault_roll := 1/100 }).1.outcomeClass = .timeout ∧
    C6Prop FaultInjector.FAULT_SCENARIOS ("db_pool_exhaustion") {} { fault_roll := 1/100 } :=
  ⟨pool_exhaustion_timeout_outcome, C6_timeout_wait_time FaultInjector.FAULT_SCENARIOS
    "db_pool_exhaustion" {} { fault_roll := 1/100 } pool_exhaustion_timeout_outcome⟩


/-- C7: scenario `cascading_failure` with draw 0.75 (at or above the 0.70
timeout rate, below the 0.90 cumulative timeout+slow threshold) produces a
SlowQuery outcome as a returned success value whose single duration lies
within ±20% of the configured 500 ms base. -/
theorem C7_cascading_failure_slow_query (st : CounterStore) (d : Draws)
    (h : d.fault_roll = 3/4) :
    C7Prop st d := by
  have hlow : ¬ d.fault_roll < (FaultInjector.get_fault_config FaultInjector.FAULT_SCENARIOS
      "cascading_failure" st).1.db_timeout_rate := by
    rw [h, show (FaultInjector.get_fault_config FaultInjector.FAULT_SCENARIOS
      "cascading_failure" st).1.db_timeout_rate = (70:ℚ)/100 from rfl]
    norm_num
  have hhigh : d.fault_roll < (FaultInjector.get_fault_config FaultInjector.FAULT_SCENARIOS
      "cascading_failure" st).1.db_timeout_rate +
      (FaultInjector.get_fault_config FaultInjector.FAULT_SCENARIOS
      "cascading_failure" st).1.slow_query_rate := by
    rw [h, show (FaultInjector.get_fault_config FaultInjector.FAULT_SCENARIOS
      "cascading_failure" st).1.db_timeout_rate = (70:ℚ)/100 from rfl,
      show (FaultInjector.get_fault_config FaultInjector.FAULT_SCENARIOS
      "cascading_failure" st).1.slow_query_rate = (20:ℚ)/100 from rfl]
    norm_num
  have hsim := simulate_slow_eq FaultInjector.FAULT_SCENARIOS ("cascading_failure") st d hlow hhigh
  rw [show ((FaultInjector.get_fault_config FaultInjector.FAULT_SCENARIOS
    "cascading_failure" st).1.query_duration_ms : ℚ) = (500:ℚ) from rfl] at hsim
  have hfa : ⌊(500:ℚ) * (8/10)⌋ = (400:ℤ) := by norm_num
  have hfb : ⌊(500:ℚ) * (12/10)⌋ = (600:ℤ) := by norm_num
  rw [hfa, hfb] at hsim
  have hb := randint_bounds 400 600 d.slow_roll (by norm_num)
  have hspike : decide (randint 400 600 d.slow_roll ≥ 2000) = false := by
    have hnot : ¬ randint 400 600 d.slow_roll ≥ 2000 := by omega
    exact decide_eq_false hnot
  rw [hspike] at hsim
  rw [show (FaultInjector.get_fault_config FaultInjector.FAULT_SCENARIOS
    "cascading_failure" st).1.deployment_time_offset_mins = none from rfl] at hsim
  unfold C7Prop
  rw [hsim]
  exact ⟨rfl, rfl, rfl, rfl, hb.1, hb.2⟩

/-- Witness for C7 at the concrete draw oracle with roll 3/4 (and oracle
value 0 for the duration, giving the 400 ms lower edge). -/
theorem C7_witness :
    ((⟨3/4, 0, 0, 0, 0⟩ : Draws).fault_roll = 3/4) ∧ C7Prop {} ⟨3/4, 0, 0, 0, 0⟩ :=
  ⟨rfl, C7_cascading_failure_slow_query {} ⟨3/4, 0, 0, 0, 0⟩ rfl⟩

/-- C2: resolving any scenario name outside the five catalog entries yields
exactly the configuration of `"normal"`, both for the raw table lookup and
for `get_fault_config` (which also leaves the table and counter untouched,
since the dynamic branch only fires for `"memory_leak"`); resolution is a
total function, so it never fails. -/
theorem C2_unknown_scenario_resolves_like_normal (name : String)
    (h : name ∉ ["normal", "db_pool_exhaustion", "deployment_config_bug",
      "memory_leak", "cascading_failure"]) :
    ScenarioTable.get FaultInjector.FAULT_SCENARIOS name =
      ScenarioTable.get FaultInjector.FAULT_SCENARIOS ("normal") ∧
    ∀ st : CounterStore,
      FaultInjector.get_fault_config FaultInjector.FAULT_SCENARIOS name st =
        FaultInjector.get_fault_config FaultInjector.FAULT_SCENARIOS ("normal") st := by
  simp only [List.mem_cons, List.not_mem_nil, or_false, not_or] at h
  obtain ⟨h1, h2, h3, h4, h5⟩ := h
  refine ⟨?_, fun st => ?_⟩
  · simp [ScenarioTable.get, h1, h2, h3, h4, h5]
  · simp [FaultInjector.get_fault_config, ScenarioTable.get, h1, h2, h3, h4, h5]

/-- Witness for C2 at the concrete unknown name `"bogus"`. -/
theorem C2_witness :
    "bogus" ∉ ["normal", "db_pool_exhaustion", "deployment_config_bug",
      "memory_leak", "cascading_failure"] ∧
    (ScenarioTable.get FaultInjector.FAULT_SCENARIOS ("bogus") =
      ScenarioTable.get FaultInjector.FAULT_SCENARIOS ("normal") ∧
    ∀ st : CounterStore,
      FaultInjector.get_fault_config FaultInjector.FAULT_SCENARIOS ("bogus") st =
        FaultInjector.get_fault_config FaultInjector.FAULT_SCENARIOS ("normal") st) :=
  ⟨by decide, C2_unknown_scenario_resolves_like_normal ("bogus") (by decide)⟩

/-- C8: persistence failures on the invocation counter are swallowed.  A
failing read makes the call observe a count of zero (so it returns 1, exactly
as with a fresh, empty store); a failing write leaves the store untouched;
and with fully failing persistence the fault configuration computed for any
scenario equals the one computed with a fresh store — the evaluation itself
still completes (every function here is total, mirroring the source's
`try/except: pass` blocks). -/
theorem C8_counter_errors_swallowed :
    (∀ (c : Option ℕ) (w : Bool),
      (FaultInjector._get_invocation_count
        { contents := c, readFails := true, writeFails := w }).1 = 1) ∧
    (∀ (c : Option ℕ) (rf : Bool),
      (FaultInjector._get_invocation_count
        { contents := c, readFails := rf, writeFails := true }).2 =
        { contents := c, readFails := rf, writeFails := true }) ∧
    (∀ (c : Option ℕ) (w : Bool),
      (FaultInjector._get_invocation_count
        { contents := c, readFails := true, writeFails := w }).1 =
      (FaultInjector._get_invocation_count {}).1) ∧
    (∀ (t : ScenarioTable) (scenario : String) (c : Option ℕ),
      (FaultInjector.get_fault_config t scenario
        { contents := c, readFails := true, writeFails := true }).1 =
      (FaultInjector.get_fault_config t scenario {}).1) := by
  refine ⟨fun c w => rfl, fun c rf => rfl, fun c w => rfl, fun t scenario c => ?_⟩
  unfold FaultInjector.get_fault_config
  split_ifs <;> rfl

/-- C9: contrary to the claim, the scenario catalog's static table IS
modified by evaluation.  `FAULT_SCENARIOS.get` returns the stored dict
itself, and for `memory_leak` the engine writes the dynamic
`additional_latency_ms` into it: after a single `memory_leak` evaluation with
a fresh counter, the stored `memory_leak` entry carries
`additional_latency_ms = 1` while the initial declared contents had no such
key. -/
theorem C9_catalog_mutated_by_memory_leak_evaluation :
    (FaultInjector.get_fault_config FaultInjector.FAULT_SCENARIOS ("memory_leak")
        {}).2.1 ≠ FaultInjector.FAULT_SCENARIOS ∧
    (FaultInjector.get_fault_config FaultInjector.FAULT_SCENARIOS ("memory_leak")
        {}).2.1.memory_leak.additional_latency_ms = some 1 ∧
    FaultInjector.FAULT_SCENARIOS.memory_leak.additional_latency_ms = none := by
  rw [get_fault_config_memory_leak]
  have hcount : (FaultInjector._get_invocation_count ({} : CounterStore)).1 = 1 := rfl
  rw [hcount]
  refine ⟨fun h => ?_, by norm_num, rfl⟩
  have h2 := congrArg (fun tb => tb.memory_leak.additional_latency_ms) h
  simp [FaultInjector.FAULT_SCENARIOS] at h2

/-- C10: the invocation counter increments the persisted value before
returning, so the fault engine never observes 0: every call returns at least
1, a call that reads a stored value `c` returns `c + 1`, the `n`-th call of a
healthy run returns `n`, and already the first `memory_leak` evaluation
computes `additional_latency_ms = 1` (not 0). -/
theorem C10_counter_strictly_positive :
    (∀ st : CounterStore, 1 ≤ (FaultInjector._get_invocation_count st).1) ∧
    (∀ c : Option ℕ,
      (FaultInjector._get_invocation_count
        { contents := c, readFails := false, writeFails := false }).1 = c.getD 0 + 1) ∧
    (∀ n : ℕ,
      (FaultInjector._get_invocation_count (counterRun n {})).1 = n + 1) ∧
    (FaultInjector.get_fault_config FaultInjector.FAULT_SCENARIOS ("memory_leak")
      {}).1.additional_latency_ms = some 1 := by
  refine ⟨fun st => ?_, fun c => rfl, fun n => ?_, ?_⟩
  · show 1 ≤ (if st.readFails then 0 else st.contents.getD 0) + 1
    omega
  · match n with
    | 0 => rfl
    | n + 1 =>
        have hfirst : counterRun (n + 1) ({} : CounterStore) =
            counterRun n { contents := some 1, readFails := false, writeFails := false } := rfl
        rw [hfirst, counterRun_healthy n 1]
        show 1 + n + 1 = n + 1 + 1
        omega
  · rw [get_fault_config_memory_leak]
    have hcount : (FaultInjector._get_invocation_count ({} : CounterStore)).1 = 1 := rfl
    rw [hcount]
    norm_num


/-- Counterexample for C3 as stated: in a `memory_leak` success evaluation
with stored count 99 (so count = 100, additional latency = 100) and base
draw 80, the reported duration is 180 but the total slept time is 280, not
180 — the additional latency is not simply "added to the sleep": the code
sleeps it separately and then again as part of the reported duration. -/
theorem C3_counterexample :
    (simulate_database_query FaultInjector.FAULT_SCENARIOS ("memory_leak")
      { contents := some 99 } { fault_roll := 9/10 }).1.logDetail = .successLog 180 ∧
    (simulate_database_query FaultInjector.FAULT_SCENARIOS ("memory_leak")
      { contents := some 99 } { fault_roll := 9/10 }).1.sleep_ms = 280 ∧
    (simulate_database_query FaultInjector.FAULT_SCENARIOS ("memory_leak")
      { contents := some 99 } { fault_roll := 9/10 }).1.sleep_ms ≠ 180 := by
  have h1 : ¬ ({ fault_roll := 9/10 } : Draws).fault_roll <
      (FaultInjector.get_fault_config FaultInjector.FAULT_SCENARIOS ("memory_leak")
        ({ contents := some 99 } : CounterStore)).1.db_timeout_rate := by
    rw [show ({ fault_roll := 9/10 } : Draws).fault_roll = (9:ℚ)/10 from rfl,
      show (FaultInjector.get_fault_config FaultInjector.FAULT_SCENARIOS ("memory_leak")
        ({ contents := some 99 } : CounterStore)).1.db_timeout_rate = (10:ℚ)/100 from rfl]
    norm_num
  have h2 : ¬ ({ fault_roll := 9/10 } : Draws).fault_roll <
      (FaultInjector.get_fault_config FaultInjector.FAULT_SCENARIOS ("memory_leak")
        ({ contents := some 99 } : CounterStore)).1.db_timeout_rate +
      (FaultInjector.get_fault_config FaultInjector.FAULT_SCENARIOS ("memory_leak")
        ({ contents := some 99 } : CounterStore)).1.slow_query_rate := by
    rw [show ({ fault_roll := 9/10 } : Draws).fault_roll = (9:ℚ)/10 from rfl,
      show (FaultInjector.get_fault_config FaultInjector.FAULT_SCENARIOS ("memory_leak")
        ({ contents := some 99 } : CounterStore)).1.db_timeout_rate = (10:ℚ)/100 from rfl,
      show (FaultInjector.get_fault_config FaultInjector.FAULT_SCENARIOS ("memory_leak")
        ({ contents := some 99 } : CounterStore)).1.slow_query_rate = (20:ℚ)/100 from rfl]
    norm_num
  have h3 : ¬ ({ fault_roll := 9/10 } : Draws).fault_roll <
      (FaultInjector.get_fault_config FaultInjector.FAULT_SCENARIOS ("memory_leak")
        ({ contents := some 99 } : CounterStore)).1.db_timeout_rate +
      (FaultInjector.get_fault_config FaultInjector.FAULT_SCENARIOS ("memory_leak")
        ({ contents := some 99 } : CounterStore)).1.slow_query_rate +
      (FaultInjector.get_fault_config FaultInjector.FAULT_SCENARIOS ("memory_leak")
        ({ contents := some 99 } : CounterStore)).1.exception_rate := by
    rw [show ({ fault_roll := 9/10 } : Draws).fault_roll = (9:ℚ)/10 from rfl,
      show (FaultInjector.get_fault_config FaultInjector.FAULT_SCENARIOS ("memory_leak")
        ({ contents := some 99 } : CounterStore)).1.db_timeout_rate = (10:ℚ)/100 from rfl,
      show (FaultInjector.get_fault_config FaultInjector.FAULT_SCENARIOS ("memory_leak")
        ({ contents := some 99 } : CounterStore)).1.slow_query_rate = (20:ℚ)/100 from rfl,
      show (FaultInjector.get_fault_config FaultInjector.FAULT_SCENARIOS ("memory_leak")
        ({ contents := some 99 } : CounterStore)).1.exception_rate = (15:ℚ)/100 from rfl]
    norm_num
  have hsim := simulate_success_eq FaultInjector.FAULT_SCENARIOS ("memory_leak")
    { contents := some 99 } { fault_roll := 9/10 } h1 h2 h3
  have hadd : (FaultInjector.get_fault_config FaultInjector.FAULT_SCENARIOS ("memory_leak")
      ({ contents := some 99 } : CounterStore)).1.additional_latency_ms.getD 0 = 100 := by
    rw [get_fault_config_memory_leak,
      show ((FaultInjector._get_invocation_count
        ({ contents := some 99 } : CounterStore)).1 : ℤ) = (100:ℤ) from rfl]
    norm_num
  rw [hadd] at hsim
  have hpos : (100:ℤ) > 0 := by norm_num
  simp only [if_pos hpos] at hsim
  rw [show randint 80 150 ({ fault_roll := 9/10 } : Draws).normal_roll = (80:ℤ) from rfl] at hsim
  norm_num at hsim
  rw [hsim]
  norm_num

/-- C3 (amended): for every `memory_leak` evaluation whose roll lands in the
success region (at or above the 0.45 rate sum), `C3Prop` holds: the formula
`floor(100 * min(count/100, 5.0))` gives the additional latency, which is
added once to the reported duration but twice to the total slept time. -/
theorem C3_memory_leak_additional_latency (st : CounterStore) (d : Draws)
    (h : 45/100 ≤ d.fault_roll) :
    C3Prop st d := by
  have h1 : ¬ d.fault_roll < (FaultInjector.get_fault_config FaultInjector.FAULT_SCENARIOS
      "memory_leak" st).1.db_timeout_rate := by
    rw [show (FaultInjector.get_fault_config FaultInjector.FAULT_SCENARIOS
      "memory_leak" st).1.db_timeout_rate = (10:ℚ)/100 from rfl]
    intro hlt
    linarith
  have h2 : ¬ d.fault_roll < (FaultInjector.get_fault_config FaultInjector.FAULT_SCENARIOS
      "memory_leak" st).1.db_timeout_rate +
      (FaultInjector.get_fault_config FaultInjector.FAULT_SCENARIOS
      "memory_leak" st).1.slow_query_rate := by
    rw [show (FaultInjector.get_fault_config FaultInjector.FAULT_SCENARIOS
      "memory_leak" st).1.db_timeout_rate = (10:ℚ)/100 from rfl,
      show (FaultInjector.get_fault_config FaultInjector.FAULT_SCENARIOS
      "memory_leak" st).1.slow_query_rate = (20:ℚ)/100 from rfl]
    intro hlt
    linarith
  have h3 : ¬ d.fault_roll < (FaultInjector.get_fault_config FaultInjector.FAULT_SCENARIOS
      "memory_leak" st).1.db_timeout_rate +
      (FaultInjector.get_fault_config FaultInjector.FAULT_SCENARIOS
      "memory_leak" st).1.slow_query_rate +
      (FaultInjector.get_fault_config FaultInjector.FAULT_SCENARIOS
      "memory_leak" st).1.exception_rate := by
    rw [show (FaultInjector.get_fault_config FaultInjector.FAULT_SCENARIOS
      "memory_leak" st).1.db_timeout_rate = (10:ℚ)/100 from rfl,
      show (FaultInjector.get_fault_config FaultInjector.FAULT_SCENARIOS
      "memory_leak" st).1.slow_query_rate = (20:ℚ)/100 from rfl,
      show (FaultInjector.get_fault_config FaultInjector.FAULT_SCENARIOS
      "memory_leak" st).1.exception_rate = (15:ℚ)/100 from rfl]
    intro hlt
    linarith
  have hsim := simulate_success_eq FaultInjector.FAULT_SCENARIOS ("memory_leak") st d h1 h2 h3
  have hadd : (FaultInjector.get_fault_config FaultInjector.FAULT_SCENARIOS
      "memory_leak" st).1.additional_latency_ms.getD 0 =
      memory_leak_additional_latency (FaultInjector._get_invocation_count st).1 := by
    rw [get_fault_config_memory_leak, memory_leak_additional_latency_eq]
    rfl
  rw [hadd] at hsim
  have hcount : 1 ≤ (FaultInjector._get_invocation_count st).1 := by
    show 1 ≤ (if st.readFails then 0 else st.contents.getD 0) + 1
    omega
  have hpos : memory_leak_additional_latency (FaultInjector._get_invocation_count st).1 > 0 := by
    rw [memory_leak_additional_latency_eq]
    have hcz : (1:ℤ) ≤ ((FaultInjector._get_invocation_count st).1 : ℤ) := by exact_mod_cast hcount
    omega
  simp only [if_pos hpos] at hsim
  have hb := randint_bounds 80 150 d.normal_roll (by norm_num)
  unfold C3Prop
  rw [hsim]
  refine ⟨rfl, rfl, rfl, hb.1, hb.2, memory_leak_additional_latency_eq _, ?_, ?_, ?_⟩
  · intro c1 c2 hc
    rw [memory_leak_additional_latency_eq, memory_leak_additional_latency_eq]
    have hcz : (c1:ℤ) ≤ (c2:ℤ) := by exact_mod_cast hc
    omega
  · rw [memory_leak_additional_latency_eq]
    norm_num
  · intro c hc
    rw [memory_leak_additional_latency_eq]
    have hcz : (500:ℤ) ≤ (c:ℤ) := by exact_mod_cast hc
    omega

/-- Witness for the amended C3 at a fresh counter (count 1, additional
latency 1) and roll 1/2. -/
theorem C3_witness :
    (45:ℚ)/100 ≤ ({ fault_roll := 1/2 } : Draws).fault_roll ∧
    C3Prop {} { fault_roll := 1/2 } :=
  ⟨by norm_num, C3_memory_leak_additional_latency {} { fault_roll := 1/2 } (by norm_num)⟩

/-- Cumulative thresholds are monotonically non-decreasing for every
configuration with non-negative rates. -/
lemma cumulative_monotone (cfg : FaultConfig)
    (h1 : 0 ≤ cfg.db_timeout_rate) (h2 : 0 ≤ cfg.slow_query_rate)
    (h3 : 0 ≤ cfg.api_error_rate.getD 0) (h4 : 0 ≤ cfg.validation_error_rate.getD 0)
    (h5 : 0 ≤ cfg.memory_error_rate.getD 0) (h6 : 0 ≤ cfg.external_api_error_rate.getD 0)
    (h7 : 0 ≤ cfg.exception_rate) :
    List.Chain' (· ≤ ·) (get_cumulative_error_probabilities cfg) := by
  rw [get_cumulative_eq]
  simp only [List.chain'_cons, List.chain'_singleton, and_true]
  refine ⟨by linarith, by linarith, by linarith, by linarith, by linarith, by linarith⟩

/-- Every configuration the engine actually consults (resolved from the
initial catalog, for any scenario name) has non-negative timeout, slow-query
and exception rates, and carries none of the four extra rate keys. -/
lemma engine_config_facts (name : String) (st : CounterStore) :
    (0 ≤ (FaultInjector.get_fault_config FaultInjector.FAULT_SCENARIOS name st).1.db_timeout_rate ∧
     0 ≤ (FaultInjector.get_fault_config FaultInjector.FAULT_SCENARIOS name st).1.slow_query_rate ∧
     0 ≤ (FaultInjector.get_fault_config FaultInjector.FAULT_SCENARIOS name st).1.exception_rate) ∧
    (FaultInjector.get_fault_config FaultInjector.FAULT_SCENARIOS name st).1.api_error_rate = none ∧
    (FaultInjector.get_fault_config FaultInjector.FAULT_SCENARIOS name st).1.validation_error_rate = none ∧
    (FaultInjector.get_fault_config FaultInjector.FAULT_SCENARIOS name st).1.memory_error_rate = none ∧
    (FaultInjector.get_fault_config FaultInjector.FAULT_SCENARIOS name st).1.external_api_error_rate = none := by
  by_cases hml : name = "memory_leak"
  · subst hml
    rw [get_fault_config_memory_leak]
    norm_num [FaultInjector.FAULT_SCENARIOS]
  · rw [get_fault_config_not_memory_leak FaultInjector.FAULT_SCENARIOS name st hml]
    show (0 ≤ (FaultInjector.FAULT_SCENARIOS.get name).db_timeout_rate ∧ _) ∧ _
    unfold ScenarioTable.get
    split_ifs <;> norm_num [FaultInjector.FAULT_SCENARIOS]


/-- C1: cumulative thresholds are monotonically non-decreasing for every
configuration with non-negative rates, and for every scenario resolved from
the catalog and every draw in `[0, 1)` the engine's selection follows the
cumulative buckets exactly, with Success selected exactly at or above the
sum of all configured rates (`C1Prop`). -/
theorem C1_cumulative_bucketing (name : String) (st : CounterStore) (d : Draws)
    (h0 : 0 ≤ d.fault_roll) (h1 : d.fault_roll < 1) :
    (∀ cfg : FaultConfig,
      0 ≤ cfg.db_timeout_rate → 0 ≤ cfg.slow_query_rate →
      0 ≤ cfg.api_error_rate.getD 0 → 0 ≤ cfg.validation_error_rate.getD 0 →
      0 ≤ cfg.memory_error_rate.getD 0 → 0 ≤ cfg.external_api_error_rate.getD 0 →
      0 ≤ cfg.exception_rate →
      List.Chain' (· ≤ ·) (get_cumulative_error_probabilities cfg)) ∧
    C1Prop name st d := by
  refine ⟨fun cfg g1 g2 g3 g4 g5 g6 g7 => cumulative_monotone cfg g1 g2 g3 g4 g5 g6 g7, ?_⟩
  obtain ⟨⟨ht, hs, he⟩, hapi, hval, hmem, hext⟩ := engine_config_facts name st
  have hth : engineThresholds name st =
      [(FaultInjector.get_fault_config FaultInjector.FAULT_SCENARIOS name st).1.db_timeout_rate,
       (FaultInjector.get_fault_config FaultInjector.FAULT_SCENARIOS name st).1.db_timeout_rate +
         (FaultInjector.get_fault_config FaultInjector.FAULT_SCENARIOS name st).1.slow_query_rate,
       (FaultInjector.get_fault_config FaultInjector.FAULT_SCENARIOS name st).1.db_timeout_rate +
         (FaultInjector.get_fault_config FaultInjector.FAULT_SCENARIOS name st).1.slow_query_rate,
       (FaultInjector.get_fault_config FaultInjector.FAULT_SCENARIOS name st).1.db_timeout_rate +
         (FaultInjector.get_fault_config FaultInjector.FAULT_SCENARIOS name st).1.slow_query_rate,
       (FaultInjector.get_fault_config FaultInjector.FAULT_SCENARIOS name st).1.db_timeout_rate +
         (FaultInjector.get_fault_config FaultInjector.FAULT_SCENARIOS name st).1.slow_query_rate,
       (FaultInjector.get_fault_config FaultInjector.FAULT_SCENARIOS name st).1.db_timeout_rate +
         (FaultInjector.get_fault_config FaultInjector.FAULT_SCENARIOS name st).1.slow_query_rate,
       (FaultInjector.get_fault_config FaultInjector.FAULT_SCENARIOS name st).1.db_timeout_rate +
         (FaultInjector.get_fault_config FaultInjector.FAULT_SCENARIOS name st).1.slow_query_rate +
         (FaultInjector.get_fault_config FaultInjector.FAULT_SCENARIOS name st).1.exception_rate] := by
    unfold engineThresholds
    rw [get_cumulative_eq, hapi, hval, hmem, hext]
    simp only [Option.getD_none, add_zero]
  unfold C1Prop
  rw [hth, outcomeClass_simulate]
  simp only [List.getD_cons_zero, List.getD_cons_succ]
  refine ⟨?_, ?_, ?_, ⟨trivial, trivial, trivial, trivial⟩, ?_, ?_, ?_⟩
  · simp only [List.chain'_cons, List.chain'_singleton, and_true]
    refine ⟨by linarith, by linarith, by linarith, by linarith, by linarith, by linarith⟩
  · constructor
    · intro hcls
      split_ifs at hcls with hc1 hc2 hc3
      exact ⟨h0, hc1⟩
    · rintro ⟨-, hlt⟩
      rw [if_pos hlt]
  · constructor
    · intro hcls
      split_ifs at hcls with hc1 hc2 hc3
      exact ⟨not_lt.mp hc1, hc2⟩
    · rintro ⟨hge, hlt⟩
      rw [if_neg (not_lt.mpr hge), if_pos hlt]
  · constructor
    · intro hcls
      split_ifs at hcls with hc1 hc2 hc3
      exact ⟨not_lt.mp hc2, hc3⟩
    · rintro ⟨hge, hlt⟩
      rw [if_neg (not_lt.mpr (by linarith : (FaultInjector.get_fault_config
          FaultInjector.FAULT_SCENARIOS name st).1.db_timeout_rate ≤ d.fault_roll)),
        if_neg (not_lt.mpr hge), if_pos hlt]
  · constructor
    · intro hcls
      split_ifs at hcls with hc1 hc2 hc3
      exact not_lt.mp hc3
    · intro hge
      rw [if_neg (not_lt.mpr (by linarith : (FaultInjector.get_fault_config
          FaultInjector.FAULT_SCENARIOS name st).1.db_timeout_rate ≤ d.fault_roll)),
        if_neg (not_lt.mpr (by linarith : (FaultInjector.get_fault_config
          FaultInjector.FAULT_SCENARIOS name st).1.db_timeout_rate +
          (FaultInjector.get_fault_config FaultInjector.FAULT_SCENARIOS
          name st).1.slow_query_rate ≤ d.fault_roll)),
        if_neg (not_lt.mpr hge)]
  · unfold ratesTotal
    rw [hapi, hval, hmem, hext]
    simp only [Option.getD_none, add_zero]

/-- Witness for C1 at scenario `normal`, fresh counter, draw 1/2. -/
theorem C1_witness :
    (0:ℚ) ≤ ({ fault_roll := 1/2 } : Draws).fault_roll ∧
    ({ fault_roll := 1/2 } : Draws).fault_roll < 1 ∧
    ((∀ cfg : FaultConfig,
      0 ≤ cfg.db_timeout_rate → 0 ≤ cfg.slow_query_rate →
      0 ≤ cfg.api_error_rate.getD 0 → 0 ≤ cfg.validation_error_rate.getD 0 →
      0 ≤ cfg.memory_error_rate.getD 0 → 0 ≤ cfg.external_api_error_rate.getD 0 →
      0 ≤ cfg.exception_rate →
      List.Chain' (· ≤ ·) (get_cumulative_error_probabilities cfg)) ∧
    C1Prop ("normal") {} { fault_roll := 1/2 }) :=
  ⟨by norm_num, by norm_num,
    C1_cumulative_bucketing ("normal") {} { fault_roll := 1/2 } (by norm_num) (by norm_num)⟩

end Checkout
